import Mathlib

/-!
Shallow embedding of the lovable-task lead-capture system.

Server side: the Deno edge function `send-confirmation` (src/unnamed/part_001),
with the two external HTTP collaborators (OpenAI text generation and Resend
email delivery) modelled as explicit outcome parameters: each invocation of the
handler is a pure function of the request and of what the collaborators did.

Client side: the `LeadCaptureForm` component (src/src/components/LeadCaptureForm.tsx),
with React state transitions modelled as a pure function from the pre-submission
component state (plus the invoke outcome) to the post-submission state.

The validator `validateLeadForm` (src/lib/validation.ts) is imported by the form
but its source file is not in the repository snapshot; it is modelled from the
spec (see its doc comment).
-/

namespace Lovable

/-- Mirrors the `EmailRequest` type of the edge function (and the client's
`FormData` interface, which has the same three string fields). -/
structure EmailRequest where
  name : String
  email : String
  industry : String
deriving DecidableEq, Repr

/-- The client component's `FormData` interface has exactly the fields of
`EmailRequest`. -/
abbrev FormData := EmailRequest

/-- `ValidationError` record: `{ field, message }`. -/
structure ValidationError where
  field : String
  message : String
deriving DecidableEq, Repr

/-- `CONFIG.EMAIL_FROM` constant of the edge function. -/
def CONFIG_EMAIL_FROM : String := "Innovation Community <testing-email@lovable.dev>"

/-- `CONFIG.AI_MODEL` constant of the edge function. -/
def CONFIG_AI_MODEL : String := "gpt-4o-mini"

/-- `CONFIG.MAX_TOKENS` constant of the edge function. -/
def CONFIG_MAX_TOKENS : Nat := 200

/-- `CONFIG.CONTENT_LIMIT` constant of the edge function. -/
def CONFIG_CONTENT_LIMIT : Nat := 150

/-- `HTTP_HEADERS.CORS` of the edge function, as an ordered list of
header-name/value pairs. -/
def CORS_HEADERS : List (String × String) :=
  [("Access-Control-Allow-Origin", "*"),
   ("Access-Control-Allow-Headers", "authorization, x-client-info, apikey, content-type")]

/-- `HTTP_HEADERS.JSON` of the edge function. -/
def JSON_HEADERS : List (String × String) :=
  [("Content-Type", "application/json")]

/-- Outcome of the OpenAI chat-completions call, as observed by
`createPersonalizedWelcomeMessage`:
`networkError` — `fetch` or `.json()` rejected (the `catch` branch);
`malformed` — the response parsed but lacks a `choices` array, so the
  unguarded index `responseData?.choices[0]` threw, landing in the same
  `catch` branch;
`parsed c` — the optional chain `choices[0]?.message?.content` evaluated to
  the string (`some c`) or to `undefined` (`none`). -/
inductive AIResult where
  | networkError
  | malformed
  | parsed (content : Option String)
deriving DecidableEq, Repr

/-- `generateFallbackMessage(name, industry)`: the deterministic template
string, a pure concatenation around the two inputs. -/
def generateFallbackMessage (name industry : String) : String :=
  "Hello " ++ name ++
  "! 🌟 Welcome to our innovation community! We\x27re excited to have a " ++
  industry ++
  " professional join our network. Prepare to explore breakthrough technologies, collaborate with industry pioneers, and discover game-changing opportunities that will reshape your professional landscape. Your innovation adventure starts now!"

/-- `createPersonalizedWelcomeMessage(recipientName, userIndustry)`:
returns `responseData?.choices[0]?.message?.content || generateFallbackMessage(...)`,
with every thrown exception caught and answered by the fallback. JavaScript
`||` also falls back when the content is the empty string (falsy). -/
def createPersonalizedWelcomeMessage (recipientName userIndustry : String) :
    AIResult → String
  | .parsed (some c) =>
      if c = "" then generateFallbackMessage recipientName userIndustry else c
  | _ => generateFallbackMessage recipientName userIndustry

/-- `buildEmailTemplate(name, industry, personalizedMessage)`: the fixed HTML
document; interpolates `personalizedMessage` (with newlines replaced by
`<br>`) and `industry` (five times). The `name` parameter is accepted but not
interpolated by the template body, exactly as in the source. -/
def buildEmailTemplate (_name industry personalizedMessage : String) : String :=
  "\n    <div style=\"font-family: \x27Segoe UI\x27, Tahoma, Geneva, Verdana, sans-serif; max-width: 650px; margin: 0 auto; padding: 25px; background-color: #fafafa;\">\n      <header style=\"text-align: center; margin-bottom: 35px;\">\n        <h1 style=\"color: #2c3e50; margin-bottom: 15px; font-size: 28px;\">🚀 Innovation Revolution Awaits!</h1>\n        <div style=\"height: 3px; background: linear-gradient(90deg, #3498db, #9b59b6); border-radius: 2px; width: 100px; margin: 0 auto;\"></div>\n      </header>\n      \n      <main style=\"background: linear-gradient(145deg, #4a90e2 0%, #7b68ee 100%); padding: 35px; border-radius: 15px; color: white; margin-bottom: 35px; box-shadow: 0 8px 32px rgba(0,0,0,0.1);\">\n        <div style=\"font-size: 19px; line-height: 1.7; text-align: center;\">\n          " ++
  (personalizedMessage.replace "\n" "<br>") ++
  "\n        </div>\n      </main>\n      \n      <section style=\"background: white; padding: 30px; border-radius: 12px; margin-bottom: 30px; border-left: 4px solid #3498db; box-shadow: 0 4px 16px rgba(0,0,0,0.05);\">\n        <h3 style=\"color: #2c3e50; margin-top: 0; font-size: 22px; margin-bottom: 20px;\">🎯 Your Innovation Journey Includes:</h3>\n        <div style=\"color: #555; line-height: 1.8; font-size: 16px;\">\n          <div style=\"margin-bottom: 12px;\">💡 <strong>Industry-specific insights</strong> for " ++
  industry ++
  " transformation</div>\n          <div style=\"margin-bottom: 12px;\">🔬 <strong>Priority access</strong> to revolutionary " ++
  industry ++
  " innovations</div>\n          <div style=\"margin-bottom: 12px;\">🌐 <strong>Network</strong> with top " ++
  industry ++
  " innovators and thought leaders</div>\n          <div style=\"margin-bottom: 12px;\">⚡ <strong>Accelerate solutions</strong> to " ++
  industry ++
  " industry challenges</div>\n        </div>\n      </section>\n      \n      <footer style=\"text-align: center; padding: 25px 0; border-top: 2px solid #ecf0f1;\">\n        <p style=\"color: #7f8c8d; margin: 0; font-size: 16px;\">\n          Ready to transform " ++
  industry ++
  "?<br>\n          <strong style=\"color: #2c3e50;\">The Innovation Community Leadership</strong>\n        </p>\n      </footer>\n    </div>\n  "

/-- The argument object passed to `emailClient.emails.send`. The source fields
`from` and `to` clash with Lean tokens, so they are named `fromAddr` and
`toAddrs` here. -/
structure EmailMessage where
  fromAddr : String
  toAddrs : List String
  subject : String
  html : String
deriving DecidableEq, Repr

/-- Outcome of the `emailClient.emails.send` call:
`ok data` — the promise resolved; `data` is the optional chain
  `result.data?.id` observed by the handler;
`err msg` — the call threw with message `msg` (the spec's §6/§7 taxonomy
  treats a delivery-API failure as a thrown error reaching the handler's
  `catch`). -/
inductive DeliveryOutcome where
  | ok (data : Option String)
  | err (msg : String)
deriving DecidableEq, Repr

/-- `processEmailDelivery(requestData)`: computes the personalized content
(step 1), renders the template (step 2), and calls the delivery API (step 3)
with the rendered message. Returns the message handed to `emails.send`
(the attempt is made unconditionally once steps 1–2 finish, which is always)
paired with the delivery result: `ok` carries `deliveryResult.data?.id`,
`error` is a thrown exception propagating to the caller. -/
def processEmailDelivery (requestData : EmailRequest) (ai : AIResult)
    (d : DeliveryOutcome) : EmailMessage × Except String (Option String) :=
  let customContent :=
    createPersonalizedWelcomeMessage requestData.name requestData.industry ai
  let emailTemplate :=
    buildEmailTemplate requestData.name requestData.industry customContent
  let msg : EmailMessage :=
    { fromAddr := CONFIG_EMAIL_FROM
      toAddrs := [requestData.email]
      subject := "🚀 " ++ requestData.name ++ ", Welcome to the Innovation Revolution!"
      html := emailTemplate }
  (msg, match d with
        | .ok data => .ok data
        | .err m => .error m)

/-- Body of the `{ success: true, messageId, status }` 200 response.
`messageId` is `Option`al: `JSON.stringify` drops the key when
`emailResult.data?.id` is `undefined`. -/
structure SuccessBody where
  success : Bool
  messageId : Option String
  status : String
deriving DecidableEq, Repr

/-- Body of the `{ success: false, error, timestamp }` 500 response. -/
structure FailureBody where
  success : Bool
  error : String
  timestamp : String
deriving DecidableEq, Repr

/-- A response body: `empty` is the `null` body of the preflight response. -/
inductive ResponseBody where
  | empty
  | success (b : SuccessBody)
  | failure (b : FailureBody)
deriving DecidableEq, Repr

/-- An HTTP response as the handler constructs it: status code, body, and the
ordered header list (`{ ...HTTP_HEADERS.JSON, ...HTTP_HEADERS.CORS }` spreads
to the concatenation, there being no overlapping keys). -/
structure Response where
  status : Nat
  body : ResponseBody
  headers : List (String × String)
deriving DecidableEq, Repr

/-- `requestHandler(request)`: preflight short-circuit, then
parse-body / process / respond, with one `catch` for the whole `try`.
`bodyParse` is the outcome of `await request.json()` (`error m` when the body
is not valid JSON and the parse threw with message `m`); `now` is the string
`new Date().toISOString()` would produce in the `catch` branch. -/
def requestHandler (method : String) (bodyParse : Except String EmailRequest)
    (ai : AIResult) (d : DeliveryOutcome) (now : String) : Response :=
  if method = "OPTIONS" then
    { status := 200, body := .empty, headers := CORS_HEADERS }
  else
    match bodyParse with
    | .error m =>
        { status := 500
          body := .failure { success := false, error := m, timestamp := now }
          headers := JSON_HEADERS ++ CORS_HEADERS }
    | .ok requestBody =>
        match (processEmailDelivery requestBody ai d).2 with
        | .error m =>
            { status := 500
              body := .failure { success := false, error := m, timestamp := now }
              headers := JSON_HEADERS ++ CORS_HEADERS }
        | .ok data =>
            { status := 200
              body := .success { success := true, messageId := data, status := "delivered" }
              headers := JSON_HEADERS ++ CORS_HEADERS }

/-- Whitespace-trim on a character list (both ends), the standard
`String.prototype.trim` semantics used by the validator model below. -/
def trimChars (cs : List Char) : List Char :=
  ((cs.dropWhile Char.isWhitespace).reverse.dropWhile Char.isWhitespace).reverse

/-- The trimmed form of a string, as a character list. -/
def trimmed (s : String) : List Char := trimChars s.data

/-- Split a character list at every occurrence of `sep` (the list analogue of
`String.split` on a single character). -/
def splitOnChar (sep : Char) : List Char → List (List Char)
  | [] => [[]]
  | c :: cs =>
      let rest := splitOnChar sep cs
      if c = sep then [] :: rest
      else
        match rest with
        | [] => [[c]]
        | r :: rs => (c :: r) :: rs

/-- Modelled from the spec: the file `src/lib/validation.ts` (imported by the
form as `validateLeadForm`) is not in the repository snapshot. This predicate
follows spec §4.1 verbatim — email rule: a standard email-address shape, a
non-empty local part, then `@`, then a domain containing at least one dot. -/
def isValidEmailShape (s : String) : Bool :=
  match splitOnChar '@' s.data with
  | [localPart, domainPart] => !localPart.isEmpty && domainPart.contains '.'
  | _ => false

/-- Modelled from the spec: the fixed enumerated industry set of spec §4.1
(also the `value`s of `INDUSTRY_OPTIONS` in the form component). -/
def INDUSTRY_OPTIONS : List String :=
  ["technology", "healthcare", "finance", "education", "retail",
   "manufacturing", "consulting", "other"]

/-- Modelled from the spec: name rule of `validateLeadForm` in the missing
`src/lib/validation.ts` — required, trimmed length in [2, 50]; message
"Name is required" when empty after trimming, else the range message. -/
def nameErrors (name : String) : List ValidationError :=
  if (trimmed name).length < 2 ∨ (trimmed name).length > 50 then
    [{ field := "name"
       message := if trimmed name = [] then "Name is required"
                  else "Name must be between 2 and 50 characters" }]
  else []

/-- Modelled from the spec: email rule of `validateLeadForm` in the missing
`src/lib/validation.ts`. -/
def emailErrors (email : String) : List ValidationError :=
  if isValidEmailShape email then []
  else [{ field := "email", message := "Please enter a valid email address" }]

/-- Modelled from the spec: industry rule of `validateLeadForm` in the missing
`src/lib/validation.ts`. -/
def industryErrors (industry : String) : List ValidationError :=
  if industry ∈ INDUSTRY_OPTIONS then []
  else [{ field := "industry", message := "Please select an industry" }]

/-- Modelled from the spec: `validateLeadForm(data: FormData): ValidationError[]`
of the missing `src/lib/validation.ts` — a pure function producing the field
errors in the stable order name, email, industry (spec §4.1). -/
def validateLeadForm (data : FormData) : List ValidationError :=
  nameErrors data.name ++ emailErrors data.email ++ industryErrors data.industry

/-- `LeadRecord` interface of the form component. -/
structure LeadRecord where
  name : String
  email : String
  industry : String
  submitted_at : String
deriving DecidableEq, Repr

/-- `INITIAL_FORM_STATE` constant of the form component. -/
def INITIAL_FORM_STATE : FormData := { name := "", email := "", industry := "" }

/-- The React state of `LeadCaptureForm`: the five `useState` hooks. -/
structure FormComponentState where
  formData : FormData
  errors : List ValidationError
  isSubmitted : Bool
  leadRecords : List LeadRecord
  isLoading : Bool
deriving DecidableEq, Repr

/-- Outcome of `supabase.functions.invoke` as observed by
`sendConfirmationEmail`: the call resolved without error (`ok`), resolved with
a non-null `error` field (`apiError`), or itself threw (`threw msg`). -/
inductive InvokeOutcome where
  | ok
  | apiError
  | threw (msg : String)
deriving DecidableEq, Repr

/-- `sendConfirmationEmail(leadData)`: throws `Error("Email service
unavailable")` when the invoke result carries an error, and rethrows an
exception thrown by the invoke itself; resolves otherwise. -/
def sendConfirmationEmail : InvokeOutcome → Except String Unit
  | .ok => .ok ()
  | .apiError => .error "Email service unavailable"
  | .threw m => .error m

/-- `handleFormSubmission(e)`: the net effect of one submission on the
component state. Validation errors are stored first; only a clean validation
reaches the confirmation call. On a successful call, the lead record (built
from the submitted form data plus `submitted_at := now`) is appended, the
success view is enabled, and the form data is reset; a failed call lands in
the `catch` (which only logs). The `finally` clears `isLoading` on every
path. -/
def handleFormSubmission (s : FormComponentState) (invokeRes : InvokeOutcome)
    (now : String) : FormComponentState :=
  let validationErrors := validateLeadForm s.formData
  if validationErrors = [] then
    match sendConfirmationEmail invokeRes with
    | .ok _ =>
        let newLeadRecord : LeadRecord :=
          { name := s.formData.name, email := s.formData.email
            industry := s.formData.industry, submitted_at := now }
        { s with errors := validationErrors
                 leadRecords := s.leadRecords ++ [newLeadRecord]
                 isSubmitted := true
                 formData := INITIAL_FORM_STATE
                 isLoading := false }
    | .error _ => { s with errors := validationErrors, isLoading := false }
  else { s with errors := validationErrors, isLoading := false }

/-- An AI outcome on which the optional chain yields no content: network
error, malformed response, or a parsed response missing the first completion.
These are exactly the failures claim C1 enumerates; `parsed (some c)` is a
delivered completion (even `""`, which JavaScript `||` also replaces). -/
def aiFailed : AIResult → Bool
  | .parsed (some _) => false
  | _ => true

/-- C1: whenever the AI text-generation step fails (network error, malformed
response, or missing first completion — thrown exceptions land in the first
two), the handler still renders the template with the deterministic fallback
message and hands that email to the delivery call, and an AI failure alone
never yields a failure result: with the delivery call resolving, the response
is still the 200 success response. -/
theorem c1_ai_failure_never_blocks_delivery
    (req : EmailRequest) (ai : AIResult) (d : DeliveryOutcome) (now : String)
    (hai : aiFailed ai = true) :
    (processEmailDelivery req ai d).1.html
      = buildEmailTemplate req.name req.industry
          (generateFallbackMessage req.name req.industry)
    ∧ ∀ data, d = .ok data →
        requestHandler "POST" (.ok req) ai d now
          = { status := 200
              body := .success { success := true, messageId := data, status := "delivered" }
              headers := JSON_HEADERS ++ CORS_HEADERS } := by
  constructor
  · cases ai with
    | networkError => rfl
    | malformed => rfl
    | parsed c =>
        cases c with
        | none => rfl
        | some c => simp [aiFailed] at hai
  · intro data hd
    subst hd
    rfl

/-- Witness for C1 at a concrete request, a simulated network error, and a
resolving delivery call. -/
theorem c1_witness :
    (processEmailDelivery { name := "John Doe", email := "john@example.com", industry := "technology" }
        .networkError (.ok (some "msg_abc123"))).1.html
      = buildEmailTemplate "John Doe" "technology"
          (generateFallbackMessage "John Doe" "technology")
    ∧ requestHandler "POST"
        (.ok { name := "John Doe", email := "john@example.com", industry := "technology" })
        .networkError (.ok (some "msg_abc123")) "2025-01-01T00:00:00.000Z"
        = { status := 200
            body := .success { success := true, messageId := some "msg_abc123", status := "delivered" }
            headers := JSON_HEADERS ++ CORS_HEADERS } := by
  have h := c1_ai_failure_never_blocks_delivery
    { name := "John Doe", email := "john@example.com", industry := "technology" }
    .networkError (.ok (some "msg_abc123")) "2025-01-01T00:00:00.000Z" rfl
  exact ⟨h.1, h.2 (some "msg_abc123") rfl⟩

/-- C2: when the delivery call throws (the modelled delivery-API failure, or
any exception surfacing from the pipeline's delivery step), the handler
returns status 500 with body `{ success: false, error: <the thrown message>,
timestamp: <the ISO timestamp string> }` under the JSON and CORS headers; the
error field is the thrown message, hence non-empty whenever that message
is. -/
theorem c2_delivery_failure_returns_500
    (method : String) (req : EmailRequest) (ai : AIResult) (errMsg now : String)
    (hm : method ≠ "OPTIONS") (he : errMsg ≠ "") :
    requestHandler method (.ok req) ai (.err errMsg) now
      = { status := 500
          body := .failure { success := false, error := errMsg, timestamp := now }
          headers := JSON_HEADERS ++ CORS_HEADERS }
    ∧ errMsg ≠ "" := by
  refine ⟨?_, he⟩
  unfold requestHandler
  rw [if_neg hm]
  rfl

/-- Witness for C2 at a concrete POST request whose delivery call throws. -/
theorem c2_witness :
    requestHandler "POST"
        (.ok { name := "John Doe", email := "john@example.com", industry := "technology" })
        (.parsed (some "Welcome!")) (.err "API key is invalid") "2025-01-01T00:00:00.000Z"
      = { status := 500
          body := .failure { success := false, error := "API key is invalid"
                             timestamp := "2025-01-01T00:00:00.000Z" }
          headers := JSON_HEADERS ++ CORS_HEADERS }
    ∧ "API key is invalid" ≠ "" :=
  c2_delivery_failure_returns_500 "POST"
    { name := "John Doe", email := "john@example.com", industry := "technology" }
    (.parsed (some "Welcome!")) "API key is invalid" "2025-01-01T00:00:00.000Z"
    (by decide) (by decide)

/-- C3: when the delivery call resolves with a message id, the handler returns
status 200 with body exactly `{ success: true, messageId: <that id>, status:
"delivered" }`; the messageId field is present and non-empty whenever the id
the delivery API reported is. -/
theorem c3_delivery_success_returns_200
    (method : String) (req : EmailRequest) (ai : AIResult) (id now : String)
    (hm : method ≠ "OPTIONS") (hid : id ≠ "") :
    requestHandler method (.ok req) ai (.ok (some id)) now
      = { status := 200
          body := .success { success := true, messageId := some id, status := "delivered" }
          headers := JSON_HEADERS ++ CORS_HEADERS }
    ∧ id ≠ "" := by
  refine ⟨?_, hid⟩
  unfold requestHandler
  rw [if_neg hm]
  rfl

/-- Witness for C3 at the spec's end-to-end success scenario. -/
theorem c3_witness :
    requestHandler "POST"
        (.ok { name := "John Doe", email := "john@example.com", industry := "technology" })
        (.parsed (some "Welcome!")) (.ok (some "49a3999c-0ce1-4ea6-ab68-afcd6dc2e98d"))
        "2025-01-01T00:00:00.000Z"
      = { status := 200
          body := .success { success := true
                             messageId := some "49a3999c-0ce1-4ea6-ab68-afcd6dc2e98d"
                             status := "delivered" }
          headers := JSON_HEADERS ++ CORS_HEADERS }
    ∧ "49a3999c-0ce1-4ea6-ab68-afcd6dc2e98d" ≠ "" :=
  c3_delivery_success_returns_200 "POST"
    { name := "John Doe", email := "john@example.com", industry := "technology" }
    (.parsed (some "Welcome!")) "49a3999c-0ce1-4ea6-ab68-afcd6dc2e98d"
    "2025-01-01T00:00:00.000Z" (by decide) (by decide)

/-- C4: on a submission that passes validation, a failed confirmation call
(invoke error or thrown exception) leaves the success-related client state
unchanged — no lead record appended, `isSubmitted` unchanged (so it stays
false on the form view), form data kept — while a successful call appends
exactly one lead record, shows the success view, and resets the form. -/
theorem c4_form_state_on_confirmation_outcome
    (s : FormComponentState) (r : InvokeOutcome) (now : String)
    (hv : validateLeadForm s.formData = []) :
    (r ≠ InvokeOutcome.ok →
        (handleFormSubmission s r now).leadRecords = s.leadRecords
        ∧ (handleFormSubmission s r now).isSubmitted = s.isSubmitted
        ∧ (handleFormSubmission s r now).formData = s.formData)
    ∧ (r = InvokeOutcome.ok →
        (handleFormSubmission s r now).leadRecords
          = s.leadRecords ++ [{ name := s.formData.name, email := s.formData.email
                                industry := s.formData.industry, submitted_at := now }]
        ∧ (handleFormSubmission s r now).isSubmitted = true
        ∧ (handleFormSubmission s r now).formData = INITIAL_FORM_STATE) := by
  constructor
  · intro hr
    cases r with
    | ok => exact absurd rfl hr
    | apiError => simp [handleFormSubmission, hv, sendConfirmationEmail]
    | threw m => simp [handleFormSubmission, hv, sendConfirmationEmail]
  · intro hr
    subst hr
    simp [handleFormSubmission, hv, sendConfirmationEmail]

/-- Witness for C4: a concrete valid submission, once with a failing invoke
(state untouched) and once with a successful one (record appended, success
view shown, form reset). -/
theorem c4_witness :
    (handleFormSubmission
        { formData := { name := "John Doe", email := "john@example.com", industry := "technology" }
          errors := [], isSubmitted := false, leadRecords := [], isLoading := true }
        .apiError "2025-01-01T00:00:00.000Z").leadRecords = []
    ∧ (handleFormSubmission
        { formData := { name := "John Doe", email := "john@example.com", industry := "technology" }
          errors := [], isSubmitted := false, leadRecords := [], isLoading := true }
        .apiError "2025-01-01T00:00:00.000Z").isSubmitted = false
    ∧ (handleFormSubmission
        { formData := { name := "John Doe", email := "john@example.com", industry := "technology" }
          errors := [], isSubmitted := false, leadRecords := [], isLoading := true }
        .ok "2025-01-01T00:00:00.000Z").leadRecords
      = [{ name := "John Doe", email := "john@example.com", industry := "technology"
           submitted_at := "2025-01-01T00:00:00.000Z" }]
    ∧ (handleFormSubmission
        { formData := { name := "John Doe", email := "john@example.com", industry := "technology" }
          errors := [], isSubmitted := false, leadRecords := [], isLoading := true }
        .ok "2025-01-01T00:00:00.000Z").isSubmitted = true := by
  have hfail := c4_form_state_on_confirmation_outcome
    { formData := { name := "John Doe", email := "john@example.com", industry := "technology" }
      errors := [], isSubmitted := false, leadRecords := [], isLoading := true }
    .apiError "2025-01-01T00:00:00.000Z" (by decide)
  have hok := c4_form_state_on_confirmation_outcome
    { formData := { name := "John Doe", email := "john@example.com", industry := "technology" }
      errors := [], isSubmitted := false, leadRecords := [], isLoading := true }
    .ok "2025-01-01T00:00:00.000Z" (by decide)
  obtain ⟨h1, h2, -⟩ := hfail.1 (by decide)
  obtain ⟨h3, h4, -⟩ := hok.2 rfl
  exact ⟨h1, h2, h3, h4⟩

/-- C5: the fallback generator is a pure deterministic function of exactly the
name and industry — equal inputs give equal output — and its output embeds
both inputs verbatim, as substrings of a fixed template. -/
theorem c5_fallback_pure_deterministic_embeds_inputs :
    (∀ n₁ n₂ i₁ i₂ : String, n₁ = n₂ → i₁ = i₂ →
        generateFallbackMessage n₁ i₁ = generateFallbackMessage n₂ i₂)
    ∧ ∀ n i : String, ∃ p q r : String,
        generateFallbackMessage n i = p ++ n ++ q ++ i ++ r := by
  constructor
  · intro n₁ n₂ i₁ i₂ h1 h2
    rw [h1, h2]
  · intro n i
    exact ⟨"Hello ",
      "! 🌟 Welcome to our innovation community! We\x27re excited to have a ",
      " professional join our network. Prepare to explore breakthrough technologies, collaborate with industry pioneers, and discover game-changing opportunities that will reshape your professional landscape. Your innovation adventure starts now!",
      rfl⟩

/-- Witness for C5 at a concrete name and industry. -/
theorem c5_witness :
    generateFallbackMessage "John Doe" "technology"
      = generateFallbackMessage "John Doe" "technology"
    ∧ ∃ p q r : String,
        generateFallbackMessage "John Doe" "technology"
          = p ++ "John Doe" ++ q ++ "technology" ++ r :=
  ⟨c5_fallback_pure_deterministic_embeds_inputs.1 "John Doe" "John Doe"
      "technology" "technology" rfl rfl,
   c5_fallback_pure_deterministic_embeds_inputs.2 "John Doe" "technology"⟩

/-- C6: the validator is a pure total function — identical inputs give
identical error lists — and the errors always appear in the stable field
order name, email, industry (the field trace is a sublist of that order). -/
theorem c6_validator_pure_stable_order :
    (∀ i j : FormData, i = j → validateLeadForm i = validateLeadForm j)
    ∧ ∀ i : FormData,
        List.Sublist ((validateLeadForm i).map ValidationError.field)
          ["name", "email", "industry"] := by
  constructor
  · intro i j h
    rw [h]
  · intro i
    unfold validateLeadForm nameErrors emailErrors industryErrors
    by_cases h1 : (trimmed i.name).length < 2 ∨ (trimmed i.name).length > 50 <;>
      by_cases h2 : isValidEmailShape i.email = true <;>
        by_cases h3 : i.industry ∈ INDUSTRY_OPTIONS <;>
          simp [h1, h2, h3]

/-- Witness for C6 at a concrete input. -/
theorem c6_witness :
    validateLeadForm { name := "J", email := "bad", industry := "" }
      = validateLeadForm { name := "J", email := "bad", industry := "" }
    ∧ List.Sublist
        ((validateLeadForm { name := "J", email := "bad", industry := "" }).map
          ValidationError.field)
        ["name", "email", "industry"] :=
  ⟨c6_validator_pure_stable_order.1 _ _ rfl,
   c6_validator_pure_stable_order.2 { name := "J", email := "bad", industry := "" }⟩

/-- C7: the input `{ name: "J", email: "bad", industry: "" }` produces exactly
three errors, one per field, in the order name, email, industry; and in
general a trimmed name length outside [2, 50] yields a name error, a string
without the email shape yields an email error, and an industry outside the
enumerated set yields an industry error. -/
theorem c7_validation_errors_per_field :
    validateLeadForm { name := "J", email := "bad", industry := "" }
      = [{ field := "name", message := "Name must be between 2 and 50 characters" },
         { field := "email", message := "Please enter a valid email address" },
         { field := "industry", message := "Please select an industry" }]
    ∧ (∀ i : FormData,
        (trimmed i.name).length < 2 ∨ (trimmed i.name).length > 50 →
        ∃ e ∈ validateLeadForm i, e.field = "name")
    ∧ (∀ i : FormData, isValidEmailShape i.email = false →
        ∃ e ∈ validateLeadForm i, e.field = "email")
    ∧ (∀ i : FormData, i.industry ∉ INDUSTRY_OPTIONS →
        ∃ e ∈ validateLeadForm i, e.field = "industry") := by
  refine ⟨by decide, ?_, ?_, ?_⟩
  · intro i h
    refine ⟨{ field := "name"
              message := if trimmed i.name = [] then "Name is required"
                         else "Name must be between 2 and 50 characters" }, ?_, rfl⟩
    unfold validateLeadForm nameErrors
    rw [if_pos h]
    simp
  · intro i h
    refine ⟨{ field := "email", message := "Please enter a valid email address" }, ?_, rfl⟩
    simp [validateLeadForm, emailErrors, h]
  · intro i h
    refine ⟨{ field := "industry", message := "Please select an industry" }, ?_, rfl⟩
    simp [validateLeadForm, industryErrors, h]

/-- Witness for C7: the concrete three-error input, plus one concrete
violation of each individual rule. -/
theorem c7_witness :
    validateLeadForm { name := "J", email := "bad", industry := "" }
      = [{ field := "name", message := "Name must be between 2 and 50 characters" },
         { field := "email", message := "Please enter a valid email address" },
         { field := "industry", message := "Please select an industry" }]
    ∧ (∃ e ∈ validateLeadForm { name := "J", email := "a@b.c", industry := "technology" },
        e.field = "name")
    ∧ (∃ e ∈ validateLeadForm { name := "John Doe", email := "bad", industry := "technology" },
        e.field = "email")
    ∧ (∃ e ∈ validateLeadForm { name := "John Doe", email := "a@b.c", industry := "space" },
        e.field = "industry") :=
  ⟨c7_validation_errors_per_field.1,
   c7_validation_errors_per_field.2.1
     { name := "J", email := "a@b.c", industry := "technology" } (by decide),
   c7_validation_errors_per_field.2.2.1
     { name := "John Doe", email := "bad", industry := "technology" } (by decide),
   c7_validation_errors_per_field.2.2.2
     { name := "John Doe", email := "a@b.c", industry := "space" } (by decide)⟩

/-- C8: an OPTIONS request gets the empty (null-body) response carrying
exactly the permissive CORS headers, and every response the handler can
produce — preflight, 200 success, 500 failure — carries those CORS headers. -/
theorem c8_cors_headers :
    (∀ (b : Except String EmailRequest) (ai : AIResult) (d : DeliveryOutcome)
        (now : String),
        requestHandler "OPTIONS" b ai d now
          = { status := 200, body := .empty, headers := CORS_HEADERS })
    ∧ ∀ (m : String) (b : Except String EmailRequest) (ai : AIResult)
        (d : DeliveryOutcome) (now : String),
        List.Sublist CORS_HEADERS (requestHandler m b ai d now).headers := by
  constructor
  · intro b ai d now
    rfl
  · intro m b ai d now
    unfold requestHandler
    split
    · exact List.Sublist.refl _
    · cases b with
      | error e => simp [JSON_HEADERS]
      | ok req =>
          cases d with
          | ok data => simp [processEmailDelivery, JSON_HEADERS]
          | err msg => simp [processEmailDelivery, JSON_HEADERS]

/-- C9: a non-OPTIONS request whose body fails to parse as JSON does not
crash the handler: the parse exception reaches the shared catch branch and
the response is the structured 500 failure with the parse error message, the
timestamp, and the JSON and CORS headers. -/
theorem c9_invalid_json_returns_500
    (method parseMsg : String) (ai : AIResult) (d : DeliveryOutcome)
    (now : String) (hm : method ≠ "OPTIONS") :
    requestHandler method (.error parseMsg) ai d now
      = { status := 500
          body := .failure { success := false, error := parseMsg, timestamp := now }
          headers := JSON_HEADERS ++ CORS_HEADERS } := by
  unfold requestHandler
  rw [if_neg hm]

/-- Witness for C9 at a concrete malformed-body POST. -/
theorem c9_witness :
    requestHandler "POST"
        (.error "Unexpected token i in JSON at position 0")
        (.parsed (some "Welcome!")) (.ok (some "msg_abc123")) "2025-01-01T00:00:00.000Z"
      = { status := 500
          body := .failure { success := false
                             error := "Unexpected token i in JSON at position 0"
                             timestamp := "2025-01-01T00:00:00.000Z" }
          headers := JSON_HEADERS ++ CORS_HEADERS } :=
  c9_invalid_json_returns_500 "POST" "Unexpected token i in JSON at position 0"
    (.parsed (some "Welcome!")) (.ok (some "msg_abc123"))
    "2025-01-01T00:00:00.000Z" (by decide)

/-- C10: the handler never validates the fields server-side: even a body the
validator rejects (empty name, malformed email, industry outside the set) is
sent on to content generation and to the delivery call — the attempted email
is addressed to the given address — and with a resolving delivery call the
handler answers 200 success regardless of field content. -/
theorem c10_no_server_side_validation
    (req : EmailRequest) (ai : AIResult) (data : Option String) (now : String)
    (hv : validateLeadForm req ≠ []) :
    (processEmailDelivery req ai (.ok data)).1.toAddrs = [req.email]
    ∧ requestHandler "POST" (.ok req) ai (.ok data) now
        = { status := 200
            body := .success { success := true, messageId := data, status := "delivered" }
            headers := JSON_HEADERS ++ CORS_HEADERS } :=
  ⟨rfl, rfl⟩

/-- Witness for C10 at a body every validation rule rejects. -/
theorem c10_witness :
    (processEmailDelivery { name := "", email := "bad", industry := "" }
        (.parsed (some "Welcome!")) (.ok (some "msg_abc123"))).1.toAddrs = ["bad"]
    ∧ requestHandler "POST" (.ok { name := "", email := "bad", industry := "" })
        (.parsed (some "Welcome!")) (.ok (some "msg_abc123")) "2025-01-01T00:00:00.000Z"
        = { status := 200
            body := .success { success := true, messageId := some "msg_abc123"
                               status := "delivered" }
            headers := JSON_HEADERS ++ CORS_HEADERS } :=
  c10_no_server_side_validation { name := "", email := "bad", industry := "" }
    (.parsed (some "Welcome!")) (some "msg_abc123") "2025-01-01T00:00:00.000Z"
    (by decide)

end Lovable
